import Mathlib

/-!
Shallow embedding of `ax/modelbridge/generation_node_input_constructors.py`:
the stage-transition arm-count and fixed-feature resolution subsystem of the
Ax generation pipeline. Python integers are modelled as `Int` (arbitrary
precision), Python `None`/absent dictionary keys as `Option.none`, raised
exceptions as `Except.error`, and the external collaborators (experiment
properties, trial snapshot, the trial-selection utility's output, and the
generation strategy's `DEFAULT_N`) as read-only fields of the corresponding
structures, exactly as this subsystem consumes them.
-/

/-- One candidate configuration (arm); only its identity matters here. -/
structure Arm where
  name : String
deriving DecidableEq

/-- A generation result (`GeneratorRun`) produced earlier in the current
round; this subsystem reads only the list of arms it contains. -/
structure GeneratorRun where
  arms : List Arm
deriving DecidableEq

/-- A trial on the experiment, as recorded in the exception's snapshot of
`experiment.trials`. -/
structure Trial where
  index : Nat
deriving DecidableEq

/-- The generation strategy handle; this subsystem reads only its
pipeline-wide per-call default count constant `DEFAULT_N` (which is `1` in
the shipped pipeline). -/
structure GenerationStrategy where
  DEFAULT_N : Int
deriving DecidableEq

/-- A generation node (stage); this subsystem reads its identity (for error
messages) and its `generation_strategy`. -/
structure GenerationNode where
  name : String
  generation_strategy : GenerationStrategy
deriving DecidableEq

/-- The experiment, as read by this subsystem: the string-keyed `_properties`
bag, the `trials` snapshot, and the output of the external trial-selection
utility `get_target_trial_index` (defined in `ax.core.utils`, outside this
subsystem), abstracted as the read-only field `target_trial_index`. -/
structure Experiment where
  _properties : List (String × Int)
  trials : List Trial
  target_trial_index : Option Nat
deriving DecidableEq

/-- Python `dict.get` on a string-keyed property bag: the value under the
key when present, otherwise `none`. -/
def dictGet (d : List (String × Int)) (k : String) : Option Int :=
  (d.find? (fun p => p.1 == k)).map (fun p => p.2)

/-- The property key `Keys.EXPERIMENT_TOTAL_CONCURRENT_ARMS.value`. -/
def EXPERIMENT_TOTAL_CONCURRENT_ARMS : String := "total_concurrent_arms"

/-- The call-time keyword mapping `gs_gen_call_kwargs` (`dict[str, Any]`);
the constructors read only the keys `"n"` and `"grs_this_gen"`, with an
absent key (or a `None` value) modelled as `none`. -/
structure GenCallKwargs where
  n : Option Int
  grs_this_gen : Option (List GeneratorRun)
deriving DecidableEq

/-- An `ObservationFeatures` value as built by `set_target_trial`: a
parameter mapping and an optional trial index. -/
structure ObservationFeatures where
  parameters : List (String × Int)
  trial_index : Option Nat
deriving DecidableEq

/-- The data carried by the `AxGenerationException` raised by
`set_target_trial`: the identity of the requesting next node and a snapshot
of the experiment's trials (both interpolated into the message). -/
structure AxGenerationException where
  next_node_name : String
  trials : List Trial
deriving DecidableEq

/-- `_get_default_n(experiment, next_node)`: the experiment's
total-concurrent-arms property when present, else
`next_node.generation_strategy.DEFAULT_N * 10`. -/
def _get_default_n (experiment : Experiment) (next_node : GenerationNode) : Int :=
  match dictGet experiment._properties EXPERIMENT_TOTAL_CONCURRENT_ARMS with
  | some total_concurrent_arms => total_concurrent_arms
  | none => next_node.generation_strategy.DEFAULT_N * 10

/-- `consume_all_n(previous_node, next_node, gs_gen_call_kwargs, experiment)`:
the kwargs value under `"n"` when present and non-None, else
`_get_default_n`. -/
def consume_all_n (previous_node : Option GenerationNode) (next_node : GenerationNode)
    (gs_gen_call_kwargs : GenCallKwargs) (experiment : Experiment) : Int :=
  match gs_gen_call_kwargs.n with
  | some v => v
  | none => _get_default_n experiment next_node

/-- The ladder `repeat_arm_n` applies to its resolved `total_n`:
`if total_n < 6: return 0; elif total_n <= 10: return 1;
return ceil(total_n / 10)`. For `total_n > 10` (the only case in which the
last line runs) `ceil(total_n / 10) = (total_n + 9) / 10` in floor
division. -/
def repeat_ladder (total_n : Int) : Int :=
  if total_n < 6 then 0
  else if total_n ≤ 10 then 1
  else (total_n + 9) / 10

/-- `repeat_arm_n(previous_node, next_node, gs_gen_call_kwargs, experiment)`:
resolve `total_n` from `"n"` (else `_get_default_n`) and apply the ladder. -/
def repeat_arm_n (previous_node : Option GenerationNode) (next_node : GenerationNode)
    (gs_gen_call_kwargs : GenCallKwargs) (experiment : Experiment) : Int :=
  let total_n := match gs_gen_call_kwargs.n with
    | some v => v
    | none => _get_default_n experiment next_node
  repeat_ladder total_n

/-- `remaining_n(previous_node, next_node, gs_gen_call_kwargs, experiment)`:
`max(total_n - sum(len(gr.arms) for gr in grs_this_gen), 0)`, where
`grs_this_gen = gs_gen_call_kwargs.get("grs_this_gen", [])` and `total_n`
is `"n"` when present and non-None, else `_get_default_n`. -/
def remaining_n (previous_node : Option GenerationNode) (next_node : GenerationNode)
    (gs_gen_call_kwargs : GenCallKwargs) (experiment : Experiment) : Int :=
  let grs_this_gen := gs_gen_call_kwargs.grs_this_gen.getD []
  let total_n := match gs_gen_call_kwargs.n with
    | some v => v
    | none => _get_default_n experiment next_node
  max (total_n - ((grs_this_gen.map (fun gr => (gr.arms.length : Int))).sum)) 0

/-- The output of the external trial-selection utility
`get_target_trial_index(experiment)` (from `ax.core.utils`): the index of
the trial qualifying as target, or `none` when no trial qualifies. -/
def get_target_trial_index (experiment : Experiment) : Option Nat :=
  experiment.target_trial_index

/-- `set_target_trial(previous_node, next_node, gs_gen_call_kwargs,
experiment)`: raise `AxGenerationException` (carrying the next node's
identity and the trials snapshot) when `get_target_trial_index` yields no
index, else return `ObservationFeatures(parameters = empty,
trial_index = target_trial_idx)`. The success type is `Option` to mirror
the Python annotation `ObservationFeatures | None`. -/
def set_target_trial (previous_node : Option GenerationNode) (next_node : GenerationNode)
    (gs_gen_call_kwargs : GenCallKwargs) (experiment : Experiment) :
    Except AxGenerationException (Option ObservationFeatures) :=
  match get_target_trial_index experiment with
  | none =>
      Except.error { next_node_name := next_node.name, trials := experiment.trials }
  | some target_trial_idx =>
      Except.ok (some { parameters := [], trial_index := some target_trial_idx })

/-- The `NodeInputConstructors` enum: each member's `value` is the name of a
same-named constructor function in this module. -/
inductive NodeInputConstructors where
  | ALL_N
  | REPEAT_N
  | REMAINING_N
  | TARGET_TRIAL_FIXED_FEATURES
deriving DecidableEq

/-- The `value` string of each `NodeInputConstructors` member. -/
def NodeInputConstructors.value : NodeInputConstructors → String
  | .ALL_N => "consume_all_n"
  | .REPEAT_N => "repeat_arm_n"
  | .REMAINING_N => "remaining_n"
  | .TARGET_TRIAL_FIXED_FEATURES => "set_target_trial"

/-- The `InputConstructorPurpose` enum. -/
inductive InputConstructorPurpose where
  | N
  | FIXED_FEATURES
deriving DecidableEq

/-- The value a dispatched constructor returns: an integer count (for the
count constructors) or a fixed-features value (for `set_target_trial`). -/
inductive ConstructorResult where
  | count : Int → ConstructorResult
  | fixed_features : Option ObservationFeatures → ConstructorResult
deriving DecidableEq

/-- The two exceptions `NodeInputConstructors.__call__` can propagate: the
`ValueError` configuration error for an unresolvable identifier, and the
`AxGenerationException` raised by `set_target_trial`. -/
inductive DispatchError where
  | valueError : String → DispatchError
  | generationError : AxGenerationException → DispatchError
deriving DecidableEq

/-- `getattr(sys.modules[__name__], name)` restricted to the constructor
methods this module defines: the same-named function for each of the four
identifiers (each wrapped into the common result type), `none` otherwise. -/
def module_method (name : String) :
    Option (Option GenerationNode → GenerationNode → GenCallKwargs → Experiment →
      Except AxGenerationException ConstructorResult) :=
  if name = "consume_all_n" then
    some (fun p nn kw e => Except.ok (ConstructorResult.count (consume_all_n p nn kw e)))
  else if name = "repeat_arm_n" then
    some (fun p nn kw e => Except.ok (ConstructorResult.count (repeat_arm_n p nn kw e)))
  else if name = "remaining_n" then
    some (fun p nn kw e => Except.ok (ConstructorResult.count (remaining_n p nn kw e)))
  else if name = "set_target_trial" then
    some (fun p nn kw e => (set_target_trial p nn kw e).map ConstructorResult.fixed_features)
  else none

/-- The `ValueError` message raised when an identifier resolves to no method
in the module. -/
def missing_method_msg (name : String) : String :=
  name ++ " is not defined as a method in ``generation_node_input_constructors.py``. Please add the method to the file."

/-- The body of `NodeInputConstructors.__call__`, parametric in the looked-up
identifier string `self.value`: resolve the name in the module, raising
`ValueError` when the lookup fails, else invoke the resolved method on the
four arguments. -/
def call_value (value : String) (previous_node : Option GenerationNode)
    (next_node : GenerationNode) (gs_gen_call_kwargs : GenCallKwargs)
    (experiment : Experiment) : Except DispatchError ConstructorResult :=
  match module_method value with
  | none => Except.error (DispatchError.valueError (missing_method_msg value))
  | some method =>
      (method previous_node next_node gs_gen_call_kwargs experiment).mapError
        DispatchError.generationError

/-- `NodeInputConstructors.__call__(self, previous_node, next_node,
gs_gen_call_kwargs, experiment)`. -/
def NodeInputConstructors.call (self : NodeInputConstructors)
    (previous_node : Option GenerationNode) (next_node : GenerationNode)
    (gs_gen_call_kwargs : GenCallKwargs) (experiment : Experiment) :
    Except DispatchError ConstructorResult :=
  call_value self.value previous_node next_node gs_gen_call_kwargs experiment

/-- The resolved total count `T` as the spec words it: the value under `"n"`
when present and non-None, otherwise the Default-Count Resolver's output. -/
def resolved_total (gs_gen_call_kwargs : GenCallKwargs) (experiment : Experiment)
    (next_node : GenerationNode) : Int :=
  match gs_gen_call_kwargs.n with
  | some v => v
  | none => _get_default_n experiment next_node

/-- `alreadyAllocated` as the spec words it: the sum of arm counts across
the generation results under `"grs_this_gen"` (absent key ⇒ 0). -/
def allocated_arms (gs_gen_call_kwargs : GenCallKwargs) : Int :=
  ((gs_gen_call_kwargs.grs_this_gen.getD []).map (fun gr => (gr.arms.length : Int))).sum

/-- A generation result with `k` arms, for concrete test inputs. -/
def gr_of_size (k : Nat) : GeneratorRun :=
  { arms := (List.range k).map (fun i => { name := toString i }) }

/-- A concrete next node whose strategy has `DEFAULT_N = 1` (the shipped
constant). -/
def node_A : GenerationNode :=
  { name := "node_A", generation_strategy := { DEFAULT_N := 1 } }

/-- A second concrete node with a different `DEFAULT_N`, for independence
tests. -/
def node_B : GenerationNode :=
  { name := "node_B", generation_strategy := { DEFAULT_N := 3 } }

/-- A concrete experiment with no properties, no trials, no target trial. -/
def exp_empty : Experiment :=
  { _properties := [], trials := [], target_trial_index := none }

/-- A concrete experiment whose total-concurrent-arms property is stored
as `0`. -/
def exp_zero_arms : Experiment :=
  { _properties := [(EXPERIMENT_TOTAL_CONCURRENT_ARMS, 0)],
    trials := [], target_trial_index := none }

/-- A concrete experiment with target trial index `7` and two trials. -/
def exp_target7 : Experiment :=
  { _properties := [(EXPERIMENT_TOTAL_CONCURRENT_ARMS, 25)],
    trials := [{ index := 0 }, { index := 7 }], target_trial_index := some 7 }

/-- For every integer `T`, `⌈T / 10⌉` computed over the rationals equals
`(T + 9) / 10` in integer floor division. -/
lemma ceil_div_ten (T : Int) : (⌈(T : ℚ) / 10⌉ : Int) = (T + 9) / 10 := by
  have h1 : ((T + 9) / 10 - 1) * 10 < T := by omega
  have h2 : T ≤ ((T + 9) / 10) * 10 := by omega
  rw [Int.ceil_eq_iff]
  constructor
  · rw [lt_div_iff₀ (by norm_num : (0 : ℚ) < 10)]
    exact_mod_cast h1
  · rw [div_le_iff₀ (by norm_num : (0 : ℚ) < 10)]
    exact_mod_cast h2

/-- C1: `remaining_n` returns `max(T − allocated, 0)` where `T` is the
resolved total count and `allocated` the sum of arm counts under
`"grs_this_gen"`; the result is never negative, and is exactly `0` whenever
`allocated ≥ T`. -/
theorem remaining_n_spec (previous_node : Option GenerationNode)
    (next_node : GenerationNode) (gs_gen_call_kwargs : GenCallKwargs)
    (experiment : Experiment) :
    remaining_n previous_node next_node gs_gen_call_kwargs experiment =
        max (resolved_total gs_gen_call_kwargs experiment next_node -
          allocated_arms gs_gen_call_kwargs) 0 ∧
      0 ≤ remaining_n previous_node next_node gs_gen_call_kwargs experiment ∧
      (resolved_total gs_gen_call_kwargs experiment next_node ≤
          allocated_arms gs_gen_call_kwargs →
        remaining_n previous_node next_node gs_gen_call_kwargs experiment = 0) := by
  have h1 : remaining_n previous_node next_node gs_gen_call_kwargs experiment =
      max (resolved_total gs_gen_call_kwargs experiment next_node -
        allocated_arms gs_gen_call_kwargs) 0 := rfl
  refine ⟨h1, ?_, fun h => ?_⟩
  · rw [h1]; omega
  · rw [h1]; omega

/-- C1 witness: with `T = 10` and prior results summing to 4 arms the
result is `6`; with prior results summing to 12 arms it is `0`. -/
theorem remaining_n_spec_witness :
    remaining_n none node_A { n := some 10, grs_this_gen := some [gr_of_size 4] }
        exp_empty = 6 ∧
      remaining_n none node_A
        { n := some 10, grs_this_gen := some [gr_of_size 5, gr_of_size 7] }
        exp_empty = 0 := by
  constructor
  · have h := remaining_n_spec none node_A
      { n := some 10, grs_this_gen := some [gr_of_size 4] } exp_empty
    rw [h.1]; decide
  · exact (remaining_n_spec none node_A
      { n := some 10, grs_this_gen := some [gr_of_size 5, gr_of_size 7] }
      exp_empty).2.2 (by decide)

/-- C2: `repeat_arm_n` resolves the total count `T` (explicit `"n"` else
`_get_default_n`) and returns `0` when `T < 6`, `1` when `6 ≤ T ≤ 10`, and
`⌈T / 10⌉` when `T > 10`. -/
theorem repeat_arm_n_ladder_spec (previous_node : Option GenerationNode)
    (next_node : GenerationNode) (gs_gen_call_kwargs : GenCallKwargs)
    (experiment : Experiment) :
    (resolved_total gs_gen_call_kwargs experiment next_node < 6 →
        repeat_arm_n previous_node next_node gs_gen_call_kwargs experiment = 0) ∧
      (6 ≤ resolved_total gs_gen_call_kwargs experiment next_node →
        resolved_total gs_gen_call_kwargs experiment next_node ≤ 10 →
        repeat_arm_n previous_node next_node gs_gen_call_kwargs experiment = 1) ∧
      (10 < resolved_total gs_gen_call_kwargs experiment next_node →
        repeat_arm_n previous_node next_node gs_gen_call_kwargs experiment =
          ⌈(resolved_total gs_gen_call_kwargs experiment next_node : ℚ) / 10⌉) := by
  have hrw : repeat_arm_n previous_node next_node gs_gen_call_kwargs experiment =
      repeat_ladder (resolved_total gs_gen_call_kwargs experiment next_node) := rfl
  refine ⟨fun h => ?_, fun h1 h2 => ?_, fun h => ?_⟩
  · rw [hrw]; unfold repeat_ladder; split_ifs <;> omega
  · rw [hrw]; unfold repeat_ladder; split_ifs <;> omega
  · rw [hrw, ceil_div_ten]; unfold repeat_ladder; split_ifs <;> omega

/-- C2 witness: `T = 5` gives `0`, `T = 7` gives `1`, `T = 23` gives
`ceil(23 / 10) = 3`. -/
theorem repeat_arm_n_ladder_spec_witness :
    repeat_arm_n none node_A { n := some 5, grs_this_gen := none } exp_empty = 0 ∧
      repeat_arm_n none node_A { n := some 7, grs_this_gen := none } exp_empty = 1 ∧
      repeat_arm_n none node_A { n := some 23, grs_this_gen := none } exp_empty = 3 := by
  refine ⟨?_, ?_, ?_⟩
  · exact (repeat_arm_n_ladder_spec none node_A
      { n := some 5, grs_this_gen := none } exp_empty).1 (by decide)
  · exact (repeat_arm_n_ladder_spec none node_A
      { n := some 7, grs_this_gen := none } exp_empty).2.1 (by decide) (by decide)
  · have h := (repeat_arm_n_ladder_spec none node_A
      { n := some 23, grs_this_gen := none } exp_empty).2.2 (by decide)
    rw [h, ceil_div_ten]; decide

/-- C3: `set_target_trial` raises the generation exception exactly when
`get_target_trial_index` yields no index; the exception carries the next
node's identity and the trials snapshot; when index `k` qualifies, the
result is (never `None`) a fixed-features value with empty parameters and
trial index `k`. -/
theorem set_target_trial_spec (previous_node : Option GenerationNode)
    (next_node : GenerationNode) (gs_gen_call_kwargs : GenCallKwargs)
    (experiment : Experiment) :
    ((∃ err, set_target_trial previous_node next_node gs_gen_call_kwargs experiment =
          Except.error err) ↔ get_target_trial_index experiment = none) ∧
      (get_target_trial_index experiment = none →
        set_target_trial previous_node next_node gs_gen_call_kwargs experiment =
          Except.error { next_node_name := next_node.name, trials := experiment.trials }) ∧
      (∀ k, get_target_trial_index experiment = some k →
        set_target_trial previous_node next_node gs_gen_call_kwargs experiment =
          Except.ok (some { parameters := [], trial_index := some k })) := by
  rcases h : experiment.target_trial_index with _ | k <;>
    simp [set_target_trial, get_target_trial_index, h]

/-- C3 witness: an experiment with no qualifying trial raises the exception
carrying the node identity and trial snapshot; an experiment whose target
trial index is `7` yields the fixed-features value at index `7`. -/
theorem set_target_trial_spec_witness :
    set_target_trial none node_A { n := none, grs_this_gen := none } exp_empty =
        Except.error { next_node_name := "node_A", trials := [] } ∧
      set_target_trial none node_A { n := none, grs_this_gen := none } exp_target7 =
        Except.ok (some { parameters := [], trial_index := some 7 }) := by
  constructor
  · exact (set_target_trial_spec none node_A
      { n := none, grs_this_gen := none } exp_empty).2.1 rfl
  · exact (set_target_trial_spec none node_A
      { n := none, grs_this_gen := none } exp_target7).2.2 7 rfl

/-- C4 counterexample: the claim that `_get_default_n` always returns a
value `≥ 1` and `≥ DEFAULT_N` is false: with the total-concurrent-arms
property stored as `0`, the property is returned verbatim and the result
is `0`. -/
theorem get_default_n_not_always_ge_one :
    ¬ ∀ (e : Experiment) (nn : GenerationNode),
        1 ≤ _get_default_n e nn ∧
          nn.generation_strategy.DEFAULT_N ≤ _get_default_n e nn :=
  fun h => absurd (h exp_zero_arms node_A).1 (by decide)

/-- C4 amended: when the total-concurrent-arms property is absent and
`DEFAULT_N ≥ 1` (the shipped constant is `1`), `_get_default_n` returns
`DEFAULT_N * 10`, which is `≥ 1` and `≥ DEFAULT_N`; when the property is
present it is returned verbatim, with no positivity guarantee. -/
theorem get_default_n_amended (e : Experiment) (nn : GenerationNode)
    (hd : 1 ≤ nn.generation_strategy.DEFAULT_N)
    (hp : dictGet e._properties EXPERIMENT_TOTAL_CONCURRENT_ARMS = none) :
    1 ≤ _get_default_n e nn ∧
      nn.generation_strategy.DEFAULT_N ≤ _get_default_n e nn := by
  have h : _get_default_n e nn = nn.generation_strategy.DEFAULT_N * 10 := by
    unfold _get_default_n
    rw [hp]
  rw [h]
  omega

/-- C4 witness: on an experiment without the property and a node with
`DEFAULT_N = 1`, the output is `≥ 1` and `≥ DEFAULT_N`. -/
theorem get_default_n_amended_witness :
    1 ≤ _get_default_n exp_empty node_A ∧
      node_A.generation_strategy.DEFAULT_N ≤ _get_default_n exp_empty node_A :=
  get_default_n_amended exp_empty node_A (by decide) (by decide)

/-- C5: `consume_all_n` returns the kwargs value under `"n"` verbatim when
present and non-None, and otherwise returns exactly `_get_default_n`'s
output for the experiment and next node. -/
theorem consume_all_n_spec (previous_node : Option GenerationNode)
    (next_node : GenerationNode) (gs_gen_call_kwargs : GenCallKwargs)
    (experiment : Experiment) :
    (∀ v, gs_gen_call_kwargs.n = some v →
        consume_all_n previous_node next_node gs_gen_call_kwargs experiment = v) ∧
      (gs_gen_call_kwargs.n = none →
        consume_all_n previous_node next_node gs_gen_call_kwargs experiment =
          _get_default_n experiment next_node) := by
  rcases h : gs_gen_call_kwargs.n with _ | v <;> simp [consume_all_n, h]

/-- C5 witness: with `n = 42` the result is `42` verbatim; without `n` the
result is `_get_default_n`'s output (here `10`). -/
theorem consume_all_n_spec_witness :
    consume_all_n none node_A { n := some 42, grs_this_gen := none } exp_empty = 42 ∧
      consume_all_n none node_A { n := none, grs_this_gen := none } exp_empty =
        _get_default_n exp_empty node_A := by
  constructor
  · exact (consume_all_n_spec none node_A
      { n := some 42, grs_this_gen := none } exp_empty).1 42 rfl
  · exact (consume_all_n_spec none node_A
      { n := none, grs_this_gen := none } exp_empty).2 rfl

/-- C6: `_get_default_n` returns the experiment's total-concurrent-arms
property verbatim when present, and otherwise exactly `10` times the next
node's pipeline-wide `DEFAULT_N`. -/
theorem get_default_n_spec (e : Experiment) (nn : GenerationNode) :
    (∀ v, dictGet e._properties EXPERIMENT_TOTAL_CONCURRENT_ARMS = some v →
        _get_default_n e nn = v) ∧
      (dictGet e._properties EXPERIMENT_TOTAL_CONCURRENT_ARMS = none →
        _get_default_n e nn = 10 * nn.generation_strategy.DEFAULT_N) := by
  rcases h : dictGet e._properties EXPERIMENT_TOTAL_CONCURRENT_ARMS with _ | v <;>
    simp [_get_default_n, h, Int.mul_comm]

/-- C6 witness: with the property stored as `25` the result is `25`; with
no property and `DEFAULT_N = 3` the result is `30`. -/
theorem get_default_n_spec_witness :
    _get_default_n exp_target7 node_A = 25 ∧ _get_default_n exp_empty node_B = 30 := by
  constructor
  · exact (get_default_n_spec exp_target7 node_A).1 25 rfl
  · have h := (get_default_n_spec exp_empty node_B).2 rfl
    rw [h]; decide

/-- C7: dispatching each of the four defined identifiers invokes the
same-named constructor and returns its result — an integer count for the
three COUNT identifiers, and for `set_target_trial` a fixed-features value
on success (its generation exception propagating otherwise); an identifier
resolving to no method in the module raises the configuration `ValueError`
naming the identifier and the file. -/
theorem dispatch_spec (p : Option GenerationNode) (nn : GenerationNode)
    (kw : GenCallKwargs) (e : Experiment) :
    NodeInputConstructors.call .ALL_N p nn kw e =
        Except.ok (ConstructorResult.count (consume_all_n p nn kw e)) ∧
      NodeInputConstructors.call .REPEAT_N p nn kw e =
        Except.ok (ConstructorResult.count (repeat_arm_n p nn kw e)) ∧
      NodeInputConstructors.call .REMAINING_N p nn kw e =
        Except.ok (ConstructorResult.count (remaining_n p nn kw e)) ∧
      NodeInputConstructors.call .TARGET_TRIAL_FIXED_FEATURES p nn kw e =
        ((set_target_trial p nn kw e).map ConstructorResult.fixed_features).mapError
          DispatchError.generationError ∧
      (∀ r, set_target_trial p nn kw e = Except.ok r →
        NodeInputConstructors.call .TARGET_TRIAL_FIXED_FEATURES p nn kw e =
          Except.ok (ConstructorResult.fixed_features r)) ∧
      (∀ name, module_method name = none →
        call_value name p nn kw e =
          Except.error (DispatchError.valueError (missing_method_msg name))) := by
  refine ⟨rfl, rfl, rfl, rfl, fun r h => ?_, fun name h => ?_⟩
  · have hc : NodeInputConstructors.call .TARGET_TRIAL_FIXED_FEATURES p nn kw e =
        ((set_target_trial p nn kw e).map ConstructorResult.fixed_features).mapError
          DispatchError.generationError := rfl
    rw [hc, h]
    rfl
  · unfold call_value
    rw [h]

/-- C7 witness: dispatching `ALL_N` with `n = 42` yields the count `42`;
dispatching `TARGET_TRIAL_FIXED_FEATURES` on an experiment with target
trial `7` yields the fixed-features value; the fabricated identifier
`"bogus"` yields the configuration error naming it. -/
theorem dispatch_spec_witness :
    NodeInputConstructors.call .ALL_N none node_A
        { n := some 42, grs_this_gen := none } exp_empty =
        Except.ok (ConstructorResult.count 42) ∧
      NodeInputConstructors.call .TARGET_TRIAL_FIXED_FEATURES none node_A
        { n := none, grs_this_gen := none } exp_target7 =
        Except.ok (ConstructorResult.fixed_features
          (some { parameters := [], trial_index := some 7 })) ∧
      call_value "bogus" none node_A { n := none, grs_this_gen := none } exp_empty =
        Except.error (DispatchError.valueError (missing_method_msg "bogus")) := by
  refine ⟨?_, ?_, ?_⟩
  · have h := (dispatch_spec none node_A
      { n := some 42, grs_this_gen := none } exp_empty).1
    rw [h]; rfl
  · exact (dispatch_spec none node_A
      { n := none, grs_this_gen := none } exp_target7).2.2.2.2.1
      (some { parameters := [], trial_index := some 7 }) rfl
  · exact (dispatch_spec none node_A
      { n := none, grs_this_gen := none } exp_empty).2.2.2.2.2 "bogus" rfl

/-- C8: the repeat-count function computed by `repeat_arm_n` on the resolved
total count is monotonically non-decreasing, with boundary values `0` at 5,
`1` at 6 and 10, `2` at 11 and `10` at 100. -/
theorem repeat_ladder_monotone_spec :
    (∀ (p : Option GenerationNode) (nn : GenerationNode) (kw : GenCallKwargs)
        (e : Experiment),
      repeat_arm_n p nn kw e = repeat_ladder (resolved_total kw e nn)) ∧
      (∀ T1 T2 : Int, T1 ≤ T2 → repeat_ladder T1 ≤ repeat_ladder T2) ∧
      repeat_ladder 5 = 0 ∧ repeat_ladder 6 = 1 ∧ repeat_ladder 10 = 1 ∧
      repeat_ladder 11 = 2 ∧ repeat_ladder 100 = 10 := by
  refine ⟨fun p nn kw e => rfl, fun T1 T2 h => ?_, by decide, by decide, by decide,
    by decide, by decide⟩
  unfold repeat_ladder
  split_ifs <;> omega

/-- C8 witness: monotonicity applied at `3 ≤ 50`. -/
theorem repeat_ladder_monotone_spec_witness :
    repeat_ladder 3 ≤ repeat_ladder 50 :=
  repeat_ladder_monotone_spec.2.1 3 50 (by decide)

/-- C9: when the keyword mapping carries a non-None `"n"`, the outputs of
`consume_all_n`, `repeat_arm_n` and `remaining_n` are independent of the
experiment, the next node (and its default-count hint) and the previous
node: any two such contexts yield identical results for the same mapping. -/
theorem constructors_independent_of_experiment (kw : GenCallKwargs) (v : Int)
    (hn : kw.n = some v) (p1 p2 : Option GenerationNode)
    (nn1 nn2 : GenerationNode) (e1 e2 : Experiment) :
    consume_all_n p1 nn1 kw e1 = consume_all_n p2 nn2 kw e2 ∧
      repeat_arm_n p1 nn1 kw e1 = repeat_arm_n p2 nn2 kw e2 ∧
      remaining_n p1 nn1 kw e1 = remaining_n p2 nn2 kw e2 := by
  refine ⟨?_, ?_, ?_⟩ <;> simp only [consume_all_n, repeat_arm_n, remaining_n, hn]

/-- C9 witness: with `n = 7`, two contexts differing in previous node, next
node and experiment produce identical outputs of all three constructors. -/
theorem constructors_independent_of_experiment_witness :
    consume_all_n none node_A { n := some 7, grs_this_gen := some [gr_of_size 2] }
        exp_empty =
      consume_all_n (some node_A) node_B
        { n := some 7, grs_this_gen := some [gr_of_size 2] } exp_target7 ∧
      repeat_arm_n none node_A { n := some 7, grs_this_gen := some [gr_of_size 2] }
          exp_empty =
        repeat_arm_n (some node_A) node_B
          { n := some 7, grs_this_gen := some [gr_of_size 2] } exp_target7 ∧
      remaining_n none node_A { n := some 7, grs_this_gen := some [gr_of_size 2] }
          exp_empty =
        remaining_n (some node_A) node_B
          { n := some 7, grs_this_gen := some [gr_of_size 2] } exp_target7 :=
  constructors_independent_of_experiment
    { n := some 7, grs_this_gen := some [gr_of_size 2] } 7 rfl
    none (some node_A) node_A node_B exp_empty exp_target7

/-- C10: the ladder `repeat_arm_n` applies is non-negative for every integer
resolved total count (negative counts fall in the `T < 6` branch and give
`0`), and never exceeds the total for non-negative counts; consequently
`repeat_arm_n` itself is always non-negative. -/
theorem repeat_ladder_bounds_spec :
    (∀ T : Int, 0 ≤ repeat_ladder T) ∧
      (∀ T : Int, 0 ≤ T → repeat_ladder T ≤ T) ∧
      (∀ (p : Option GenerationNode) (nn : GenerationNode) (kw : GenCallKwargs)
        (e : Experiment), 0 ≤ repeat_arm_n p nn kw e) := by
  have h1 : ∀ T : Int, 0 ≤ repeat_ladder T := by
    intro T
    unfold repeat_ladder
    split_ifs <;> omega
  refine ⟨h1, fun T h => ?_, fun p nn kw e => h1 _⟩
  unfold repeat_ladder
  split_ifs <;> omega

/-- C10 witness: at `T = -5` the ladder gives `0 ≥ 0`, and at `T = 37` the
result `4` does not exceed `37`. -/
theorem repeat_ladder_bounds_spec_witness :
    0 ≤ repeat_ladder (-5) ∧ repeat_ladder 37 ≤ 37 ∧
      0 ≤ repeat_arm_n none node_A { n := some (-5), grs_this_gen := none } exp_empty :=
  ⟨repeat_ladder_bounds_spec.1 (-5), repeat_ladder_bounds_spec.2.1 37 (by decide),
    repeat_ladder_bounds_spec.2.2 none node_A
      { n := some (-5), grs_this_gen := none } exp_empty⟩
